import Mathlib

/-!
Shallow embedding of `src/OscillatorDetector.hpp` (class `OscillatorDetector`).

Machine integers are modelled over `Nat`/`Int`:
* `uint8_t` fields are `Nat` values; every store that can overflow takes `% 256`;
* `int64_t position` and `int direction` are `Int` (only compared, never
  arithmetically combined, so no overflow can occur on them);
* the sentinel constants are the exact `int64_t` limits.

`detect` is translated statement by statement.  The C++ condition
`m_internals.maxFoundPos <= position && m_internals.maximumDebounceCounter++ == 0`
short-circuits: the post-increment of the debounce counter is evaluated only
when `maxFoundPos <= position` holds.  The embedding reproduces exactly this:
the counter is bumped only inside the `maxFoundPos ≤ position` arm, with the
pre-increment value deciding the confirmation test.
-/

namespace OscDet

def int64Min : Int := -(2 ^ 63)

def int64Max : Int := 2 ^ 63 - 1

/-- Record `m_params` of `OscillatorDetector` (both fields `uint8_t`, defaults 5). -/
structure Params where
  smootherThreshold : Nat := 5
  sensitivity : Nat := 5
deriving Repr, DecidableEq

/-- Record `m_internals` of `OscillatorDetector`, with the default member initializers
of the C++ anonymous struct. -/
structure Internals where
  extremaCounter : Nat := 0
  lastDirection : Int := 0
  minFoundPos : Int := int64Max
  maxFoundPos : Int := int64Min
  minimumDebounceCounter : Nat := 0
  maximumDebounceCounter : Nat := 0
deriving Repr, DecidableEq

/-- The default-initialized internal record, the value the reset statement
assigns to `m_internals`. -/
def defaultInternals : Internals := {}

/-- Default-constructed parameter record. -/
def defaultParams : Params := {}

/-- The whole `OscillatorDetector` object. -/
structure OscillatorDetector where
  m_params : Params := {}
  m_internals : Internals := {}
deriving Repr, DecidableEq

/-- A default-constructed `OscillatorDetector`. -/
def mkDetector : OscillatorDetector := {}

/-- Predicate `bool maximumFound = (m_internals.lastDirection > 0 && direction <= 0);`. -/
def maximumFound (s : Internals) (direction : Int) : Bool :=
  decide (0 < s.lastDirection) && decide (direction ≤ 0)

/-- Predicate `bool minimumFound = (m_internals.lastDirection < 0 && direction >= 0);`. -/
def minimumFound (s : Internals) (direction : Int) : Bool :=
  decide (s.lastDirection < 0) && decide (0 ≤ direction)

/-- The two candidate branches of `detect` (lines 80-106): threads the internal
state through the `maximumFound` branch and then the `minimumFound` branch and
returns the updated state together with the local `reset` flag.  The
post-increments `maximumDebounceCounter++` / `minimumDebounceCounter++` happen
only when the left conjunct of the short-circuit `&&` held. -/
def detectBranches (p : Params) (s0 : Internals) (position direction : Int) :
    Internals × Bool :=
  let maxFound := maximumFound s0 direction
  let minFound := minimumFound s0 direction
  let afterMax : Internals × Bool :=
    if maxFound then
      if s0.maxFoundPos ≤ position then
        let s1 := { s0 with
          maximumDebounceCounter := (s0.maximumDebounceCounter + 1) % 256 }
        if s0.maximumDebounceCounter = 0 then
          ({ s1 with
              extremaCounter := (s1.extremaCounter + 1) % 256,
              maxFoundPos := position,
              minimumDebounceCounter := 0 }, false)
        else
          ({ s1 with maxFoundPos := position }, false)
      else if p.smootherThreshold < s0.maximumDebounceCounter then
        (s0, true)
      else
        (s0, false)
    else
      (s0, false)
  let s2 := afterMax.1
  let reset2 := afterMax.2
  if minFound then
    if position ≤ s2.minFoundPos then
      let s3 := { s2 with
        minimumDebounceCounter := (s2.minimumDebounceCounter + 1) % 256 }
      if s2.minimumDebounceCounter = 0 then
        ({ s3 with
            extremaCounter := (s3.extremaCounter + 1) % 256,
            minFoundPos := position,
            maximumDebounceCounter := 0 }, reset2)
      else
        ({ s3 with minFoundPos := position }, reset2)
    else if p.smootherThreshold < s2.minimumDebounceCounter then
      (s2, true)
    else
      (s2, reset2)
  else
    (s2, reset2)

/-- Method `OscillatorDetector::detect` (lines 75-114): run both branches, apply the
reset (`m_internals = {}`), unconditionally store `lastDirection = direction`,
and return `m_internals.extremaCounter > m_params.sensitivity`. -/
def detect (d : OscillatorDetector) (position direction : Int) :
    Bool × OscillatorDetector :=
  let br := detectBranches d.m_params d.m_internals position direction
  let sReset := if br.2 then defaultInternals else br.1
  let sFinal := { sReset with lastDirection := direction }
  (decide (d.m_params.sensitivity < sFinal.extremaCounter),
   { d with m_internals := sFinal })

/-- Whether the call set the local `reset` flag. -/
def resetTriggered (d : OscillatorDetector) (position direction : Int) : Bool :=
  (detectBranches d.m_params d.m_internals position direction).2

/-- Setter `setSmootherThreshold`: the `uint8_t` parameter truncates the caller's
argument modulo 256 at the call boundary. -/
def setSmootherThreshold (d : OscillatorDetector) (threshold : Nat) :
    OscillatorDetector :=
  { d with m_params := { d.m_params with smootherThreshold := threshold % 256 } }

/-- Setter `setSensitivity`: the `uint8_t` parameter truncates the caller's argument
modulo 256 at the call boundary. -/
def setSensitivity (d : OscillatorDetector) (sensitivity : Nat) :
    OscillatorDetector :=
  { d with m_params := { d.m_params with sensitivity := sensitivity % 256 } }

/-- Getter `getSmootherThreshold`. -/
def getSmootherThreshold (d : OscillatorDetector) : Nat :=
  d.m_params.smootherThreshold

/-- Getter `getSensitivity`. -/
def getSensitivity (d : OscillatorDetector) : Nat :=
  d.m_params.sensitivity

/-- Feed a list of `(position, direction)` samples through `detect`, collecting
the per-call boolean verdicts. -/
def runDetect (d : OscillatorDetector) : List (Int × Int) → List Bool
  | [] => []
  | sample :: rest =>
    let r := detect d sample.1 sample.2
    r.1 :: runDetect r.2 rest

/-! Concrete detector states used to instantiate theorems on explicit inputs. -/

/-- A state right after a maximum was confirmed at position 100
(`maximumDebounceCounter = 1`), about to see a lower maximum candidate. -/
def belowPeakExample : OscillatorDetector :=
  { m_internals := { extremaCounter := 1, lastDirection := 1, minFoundPos := 0,
                     maxFoundPos := 100, minimumDebounceCounter := 0,
                     maximumDebounceCounter := 1 } }

/-- Mirror image of `belowPeakExample` on the minimum side. -/
def aboveTroughExample : OscillatorDetector :=
  { m_internals := { extremaCounter := 1, lastDirection := -1, minFoundPos := 100,
                     maxFoundPos := 200, minimumDebounceCounter := 1,
                     maximumDebounceCounter := 0 } }

/-- Detector with `smootherThreshold = 0` and a maximum-side debounce counter just
cleared by a minimum confirmation (`maximumDebounceCounter = 0`). -/
def thresholdZeroIdleExample : OscillatorDetector :=
  { m_params := { smootherThreshold := 0, sensitivity := 5 },
    m_internals := { extremaCounter := 2, lastDirection := 1, minFoundPos := 0,
                     maxFoundPos := 100, minimumDebounceCounter := 1,
                     maximumDebounceCounter := 0 } }

/-- Detector with `smootherThreshold = 0` and a nonzero maximum-side debounce counter. -/
def thresholdZeroArmedExample : OscillatorDetector :=
  { m_params := { smootherThreshold := 0, sensitivity := 5 },
    m_internals := { extremaCounter := 2, lastDirection := 1, minFoundPos := 0,
                     maxFoundPos := 100, minimumDebounceCounter := 0,
                     maximumDebounceCounter := 1 } }

/-- Fresh internals except that the previous call reported a rising signal. -/
def risingFreshExample : OscillatorDetector :=
  { m_internals := { lastDirection := 1 } }

/-- Fresh internals except that the previous call reported a falling signal. -/
def fallingFreshExample : OscillatorDetector :=
  { m_internals := { lastDirection := -1 } }

/-- Mirror image of `thresholdZeroArmedExample` on the minimum side. -/
def thresholdZeroArmedMinExample : OscillatorDetector :=
  { m_params := { smootherThreshold := 0, sensitivity := 5 },
    m_internals := { extremaCounter := 2, lastDirection := -1, minFoundPos := 100,
                     maxFoundPos := 200, minimumDebounceCounter := 1,
                     maximumDebounceCounter := 0 } }

end OscDet

namespace OscDet

/-! ### Helper lemmas -/

/-- A call with neither candidate predicate set only stores `lastDirection`. -/
theorem detect_no_candidate (d : OscillatorDetector) (pos dir : Int)
    (hmax : maximumFound d.m_internals dir = false)
    (hmin : minimumFound d.m_internals dir = false) :
    detect d pos dir =
      (decide (d.m_params.sensitivity < d.m_internals.extremaCounter),
       { d with m_internals := { d.m_internals with lastDirection := dir } }) := by
  simp [detect, detectBranches, hmax, hmin]

/-! ### Claim theorems -/

/-- C4: `detect` returns `true` iff the post-call `extremaCounter` strictly
exceeds `sensitivity`. -/
theorem detect_true_iff_extrema_gt_sensitivity (d : OscillatorDetector)
    (pos dir : Int) :
    (detect d pos dir).1 = true ↔
      getSensitivity (detect d pos dir).2 <
        (detect d pos dir).2.m_internals.extremaCounter := by
  simp [detect, getSensitivity]

/-- C8: `setSensitivity s` followed by `getSensitivity` yields `s` truncated to
8 bits, and the setter leaves the six internal fields unchanged. -/
theorem setSensitivity_get_roundtrip (d : OscillatorDetector) (s : Nat) :
    getSensitivity (setSensitivity d s) = s % 256 ∧
      (setSensitivity d s).m_internals = d.m_internals := by
  simp [getSensitivity, setSensitivity]

/-- C9: replaying a sample sequence on two freshly constructed detectors with
the same parameter settings yields identical per-call verdict sequences. -/
theorem runDetect_deterministic (d1 d2 : OscillatorDetector)
    (hp : d1.m_params = d2.m_params)
    (h1 : d1.m_internals = defaultInternals)
    (h2 : d2.m_internals = defaultInternals)
    (xs : List (Int × Int)) :
    runDetect d1 xs = runDetect d2 xs := by
  obtain ⟨p1, i1⟩ := d1
  obtain ⟨p2, i2⟩ := d2
  simp only at hp h1 h2
  subst hp
  subst h1
  subst h2
  rfl

/-- Witness for C9 at a concrete sample sequence. -/
theorem runDetect_deterministic_witness :
    runDetect mkDetector [((0 : Int), (1 : Int)), (5, -1), (0, 1)] =
      runDetect mkDetector [((0 : Int), (1 : Int)), (5, -1), (0, 1)] :=
  runDetect_deterministic mkDetector mkDetector rfl rfl rfl _

/-- C5: a resetting call leaves every internal field at its default except
`lastDirection`, which takes the resetting call's `direction`; the parameters
are untouched. -/
theorem reset_restores_defaults (d : OscillatorDetector) (pos dir : Int)
    (h : resetTriggered d pos dir = true) :
    (detect d pos dir).2.m_internals =
        { defaultInternals with lastDirection := dir } ∧
      (detect d pos dir).2.m_params = d.m_params := by
  unfold resetTriggered at h
  simp [detect, h]

/-- Witness for C5: a concrete call that sets the `reset` flag. -/
theorem reset_restores_defaults_witness :
    (detect thresholdZeroArmedExample 50 (-1)).2.m_internals =
        { defaultInternals with lastDirection := -1 } ∧
      (detect thresholdZeroArmedExample 50 (-1)).2.m_params =
        thresholdZeroArmedExample.m_params :=
  reset_restores_defaults thresholdZeroArmedExample 50 (-1) (by decide)

end OscDet

namespace OscDet

/-- C1 counterexample: at a non-advancing maximum candidate within the debounce
budget the code does NOT post-increment `maximumDebounceCounter` — the
short-circuit `&&` skips the increment — so the counter stays at its
pre-call value instead of `pre + 1`. -/
theorem nonadvancing_counter_not_incremented :
    maximumFound belowPeakExample.m_internals 0 = true ∧
      (50 : Int) < belowPeakExample.m_internals.maxFoundPos ∧
      belowPeakExample.m_internals.maximumDebounceCounter ≤
        belowPeakExample.m_params.smootherThreshold ∧
      (detect belowPeakExample 50 0).2.m_internals.maximumDebounceCounter =
        belowPeakExample.m_internals.maximumDebounceCounter ∧
      (detect belowPeakExample 50 0).2.m_internals.maximumDebounceCounter ≠
        belowPeakExample.m_internals.maximumDebounceCounter + 1 := by
  decide

/-- C1 (amended): a maximum candidate whose position is strictly below
`maxFoundPos` with `maximumDebounceCounter ≤ smootherThreshold` leaves every
internal field unchanged — including the debounce counter, `extremaCounter`
and `maxFoundPos` — except `lastDirection := direction`; symmetrically for
minimum candidates. -/
theorem nonadvancing_below_budget_is_noop (d : OscillatorDetector)
    (pos dir : Int) :
    (maximumFound d.m_internals dir = true →
      pos < d.m_internals.maxFoundPos →
      d.m_internals.maximumDebounceCounter ≤ d.m_params.smootherThreshold →
      (detect d pos dir).2.m_internals =
        { d.m_internals with lastDirection := dir }) ∧
    (minimumFound d.m_internals dir = true →
      d.m_internals.minFoundPos < pos →
      d.m_internals.minimumDebounceCounter ≤ d.m_params.smootherThreshold →
      (detect d pos dir).2.m_internals =
        { d.m_internals with lastDirection := dir }) := by
  constructor
  · intro hcand hpos hcnt
    simp only [maximumFound, Bool.and_eq_true, decide_eq_true_eq] at hcand
    obtain ⟨hld, hdir⟩ := hcand
    have hld2 : ¬ d.m_internals.lastDirection < 0 := by omega
    simp [detect, detectBranches, maximumFound, minimumFound, hld, hdir, hld2,
      not_le.mpr hpos, not_lt.mpr hcnt]
  · intro hcand hpos hcnt
    simp only [minimumFound, Bool.and_eq_true, decide_eq_true_eq] at hcand
    obtain ⟨hld, hdir⟩ := hcand
    have hld2 : ¬ 0 < d.m_internals.lastDirection := by omega
    simp [detect, detectBranches, maximumFound, minimumFound, hld, hdir, hld2,
      not_le.mpr hpos, not_lt.mpr hcnt]

/-- Witness for the amended C1 on both sides, at concrete states. -/
theorem nonadvancing_below_budget_is_noop_witness :
    (detect belowPeakExample 50 0).2.m_internals =
        { belowPeakExample.m_internals with lastDirection := 0 } ∧
      (detect aboveTroughExample 150 0).2.m_internals =
        { aboveTroughExample.m_internals with lastDirection := 0 } :=
  ⟨(nonadvancing_below_budget_is_noop belowPeakExample 50 0).1
      (by decide) (by decide) (by decide),
   (nonadvancing_below_budget_is_noop aboveTroughExample 150 0).2
      (by decide) (by decide) (by decide)⟩

/-- C3 counterexample: with `smootherThreshold = 0`, a non-advancing maximum
candidate arriving while `maximumDebounceCounter = 0` does NOT reset the
state (the reset needs `counter > threshold`, i.e. a nonzero counter). -/
theorem threshold_zero_zero_counter_no_reset :
    thresholdZeroIdleExample.m_params.smootherThreshold = 0 ∧
      maximumFound thresholdZeroIdleExample.m_internals (-1) = true ∧
      (50 : Int) < thresholdZeroIdleExample.m_internals.maxFoundPos ∧
      (detect thresholdZeroIdleExample 50 (-1)).2.m_internals ≠
        { defaultInternals with lastDirection := -1 } := by
  decide

/-- C3 (amended): with `smootherThreshold = 0`, a non-advancing candidate
extremum triggers a reset on that call exactly when the corresponding debounce
counter is nonzero; `lastDirection` then holds the resetting `direction`. -/
theorem threshold_zero_nonzero_debounce_resets (d : OscillatorDetector)
    (pos dir : Int) (hth : d.m_params.smootherThreshold = 0) :
    (maximumFound d.m_internals dir = true →
      pos < d.m_internals.maxFoundPos →
      d.m_internals.maximumDebounceCounter ≠ 0 →
      (detect d pos dir).2.m_internals =
        { defaultInternals with lastDirection := dir }) ∧
    (minimumFound d.m_internals dir = true →
      d.m_internals.minFoundPos < pos →
      d.m_internals.minimumDebounceCounter ≠ 0 →
      (detect d pos dir).2.m_internals =
        { defaultInternals with lastDirection := dir }) := by
  constructor
  · intro hcand hpos hcnt
    simp only [maximumFound, Bool.and_eq_true, decide_eq_true_eq] at hcand
    obtain ⟨hld, hdir⟩ := hcand
    have hld2 : ¬ d.m_internals.lastDirection < 0 := by omega
    have hgt : d.m_params.smootherThreshold <
        d.m_internals.maximumDebounceCounter := by omega
    simp [detect, detectBranches, maximumFound, minimumFound, hld, hdir, hld2,
      not_le.mpr hpos, hgt]
  · intro hcand hpos hcnt
    simp only [minimumFound, Bool.and_eq_true, decide_eq_true_eq] at hcand
    obtain ⟨hld, hdir⟩ := hcand
    have hld2 : ¬ 0 < d.m_internals.lastDirection := by omega
    have hgt : d.m_params.smootherThreshold <
        d.m_internals.minimumDebounceCounter := by omega
    simp [detect, detectBranches, maximumFound, minimumFound, hld, hdir, hld2,
      not_le.mpr hpos, hgt]

/-- Witness for the amended C3 on both sides, at concrete states. -/
theorem threshold_zero_nonzero_debounce_resets_witness :
    (detect thresholdZeroArmedExample 50 (-1)).2.m_internals =
        { defaultInternals with lastDirection := -1 } ∧
      (detect thresholdZeroArmedMinExample 150 1).2.m_internals =
        { defaultInternals with lastDirection := 1 } :=
  ⟨(threshold_zero_nonzero_debounce_resets thresholdZeroArmedExample 50 (-1)
      rfl).1 (by decide) (by decide) (by decide),
   (threshold_zero_nonzero_debounce_resets thresholdZeroArmedMinExample 150 1
      rfl).2 (by decide) (by decide) (by decide)⟩

end OscDet

namespace OscDet

/-- C6: from any state whose internals are at their defaults apart from
`lastDirection` (i.e. after construction or a reset, possibly followed by
candidate-free calls), the first candidate maximum or minimum with a position
in the int64 range is confirmed: `extremaCounter` becomes 1. -/
theorem first_candidate_always_confirmed (d : OscillatorDetector)
    (pos dir : Int)
    (hE : d.m_internals.extremaCounter = 0)
    (hMaxPos : d.m_internals.maxFoundPos = int64Min)
    (hMinPos : d.m_internals.minFoundPos = int64Max)
    (hMaxCnt : d.m_internals.maximumDebounceCounter = 0)
    (hMinCnt : d.m_internals.minimumDebounceCounter = 0)
    (hlo : int64Min ≤ pos) (hhi : pos ≤ int64Max)
    (hcand : maximumFound d.m_internals dir = true ∨
      minimumFound d.m_internals dir = true) :
    (detect d pos dir).2.m_internals.extremaCounter = 1 := by
  rcases hcand with hcand | hcand
  · simp only [maximumFound, Bool.and_eq_true, decide_eq_true_eq] at hcand
    obtain ⟨hld, hdir⟩ := hcand
    have hld2 : ¬ d.m_internals.lastDirection < 0 := by omega
    have h1 : d.m_internals.maxFoundPos ≤ pos := by rw [hMaxPos]; exact hlo
    simp [detect, detectBranches, maximumFound, minimumFound, hld, hdir, hld2,
      h1, hMaxCnt, hE]
  · simp only [minimumFound, Bool.and_eq_true, decide_eq_true_eq] at hcand
    obtain ⟨hld, hdir⟩ := hcand
    have hld2 : ¬ 0 < d.m_internals.lastDirection := by omega
    have h1 : pos ≤ d.m_internals.minFoundPos := by rw [hMinPos]; exact hhi
    simp [detect, detectBranches, maximumFound, minimumFound, hld, hdir, hld2,
      h1, hMinCnt, hE]

/-- Witness for C6: the first falling sample after a rising start confirms. -/
theorem first_candidate_always_confirmed_witness :
    (detect risingFreshExample 0 (-1)).2.m_internals.extremaCounter = 1 :=
  first_candidate_always_confirmed risingFreshExample 0 (-1)
    rfl rfl rfl rfl rfl (by decide) (by decide) (Or.inl (by decide))

/-- Helper for C7: on samples whose direction is always `1`, a detector with a
cleared extrema counter and a nonnegative `lastDirection` reports `false`
forever. -/
theorem runDetect_all_rising (d : OscillatorDetector) (xs : List (Int × Int))
    (hdir : ∀ x ∈ xs, x.2 = 1)
    (hE : d.m_internals.extremaCounter = 0)
    (hld : 0 ≤ d.m_internals.lastDirection) :
    ∀ b ∈ runDetect d xs, b = false := by
  induction xs generalizing d with
  | nil => intro b hb; simp [runDetect] at hb
  | cons x rest ih =>
    obtain ⟨pos, dir⟩ := x
    have hdir1 : dir = 1 := hdir (pos, dir) (List.mem_cons_self _ _)
    subst hdir1
    have hmax : maximumFound d.m_internals 1 = false := by
      simp [maximumFound]
    have hmin : minimumFound d.m_internals 1 = false := by
      have : ¬ d.m_internals.lastDirection < 0 := by omega
      simp [minimumFound, this]
    intro b hb
    simp only [runDetect, detect_no_candidate d pos 1 hmax hmin,
      List.mem_cons] at hb
    rcases hb with rfl | hb
    · simp [hE]
    · exact ih { d with m_internals := { d.m_internals with lastDirection := 1 } }
        (fun y hy => hdir y (List.mem_cons_of_mem _ hy))
        (by simpa using hE) (by simp) b hb

/-- Helper for C7: mirror of `runDetect_all_rising` for direction `-1`. -/
theorem runDetect_all_falling (d : OscillatorDetector) (xs : List (Int × Int))
    (hdir : ∀ x ∈ xs, x.2 = -1)
    (hE : d.m_internals.extremaCounter = 0)
    (hld : d.m_internals.lastDirection ≤ 0) :
    ∀ b ∈ runDetect d xs, b = false := by
  induction xs generalizing d with
  | nil => intro b hb; simp [runDetect] at hb
  | cons x rest ih =>
    obtain ⟨pos, dir⟩ := x
    have hdir1 : dir = -1 := hdir (pos, dir) (List.mem_cons_self _ _)
    subst hdir1
    have hmax : maximumFound d.m_internals (-1) = false := by
      have : ¬ 0 < d.m_internals.lastDirection := by omega
      simp [maximumFound, this]
    have hmin : minimumFound d.m_internals (-1) = false := by
      simp [minimumFound]
    intro b hb
    simp only [runDetect, detect_no_candidate d pos (-1) hmax hmin,
      List.mem_cons] at hb
    rcases hb with rfl | hb
    · simp [hE]
    · exact ih { d with m_internals := { d.m_internals with lastDirection := -1 } }
        (fun y hy => hdir y (List.mem_cons_of_mem _ hy))
        (by simpa using hE) (by simp) b hb

/-- C7: a freshly constructed detector fed a strictly monotonic run
(direction `+1` on every call, or `-1` on every call) never returns `true`,
for every parameter setting. -/
theorem monotonic_run_never_detects (p : Params) (xs : List (Int × Int))
    (h : (∀ x ∈ xs, x.2 = 1) ∨ (∀ x ∈ xs, x.2 = -1)) :
    true ∉ runDetect { m_params := p, m_internals := defaultInternals } xs := by
  intro hmem
  rcases h with h | h
  · have := runDetect_all_rising
      { m_params := p, m_internals := defaultInternals } xs h rfl
      (by simp [defaultInternals]) true hmem
    simp at this
  · have := runDetect_all_falling
      { m_params := p, m_internals := defaultInternals } xs h rfl
      (by simp [defaultInternals]) true hmem
    simp at this

/-- Witness for C7 on a concrete rising run. -/
theorem monotonic_run_never_detects_witness :
    true ∉ runDetect
      { m_params := defaultParams, m_internals := defaultInternals }
      [((0 : Int), (1 : Int)), (1, 1), (2, 1)] :=
  monotonic_run_never_detects defaultParams
    [((0 : Int), (1 : Int)), (1, 1), (2, 1)] (Or.inl (by decide))

end OscDet

namespace OscDet

/-- C10: each call leaves `maxFoundPos` unchanged, raises it to a `position`
at or above its old value, or resets it to `INT64_MIN`; symmetrically
`minFoundPos` stays, drops to `position`, or resets to `INT64_MAX`. -/
theorem foundPos_monotone_or_reset (d : OscillatorDetector) (pos dir : Int) :
    ((detect d pos dir).2.m_internals.maxFoundPos = d.m_internals.maxFoundPos ∨
      (d.m_internals.maxFoundPos ≤ pos ∧
        (detect d pos dir).2.m_internals.maxFoundPos = pos) ∨
      (detect d pos dir).2.m_internals.maxFoundPos = int64Min) ∧
    ((detect d pos dir).2.m_internals.minFoundPos = d.m_internals.minFoundPos ∨
      (pos ≤ d.m_internals.minFoundPos ∧
        (detect d pos dir).2.m_internals.minFoundPos = pos) ∨
      (detect d pos dir).2.m_internals.minFoundPos = int64Max) := by
  simp only [detect, detectBranches]
  split_ifs <;> simp_all [defaultInternals]

/-- Helper for C2: `sign d ≤ 0` exactly when `d ≤ 0`. -/
theorem sign_le_zero_iff (n : Int) : n.sign ≤ 0 ↔ n ≤ 0 := by
  rcases lt_trichotomy n 0 with h | h | h
  · rw [Int.sign_eq_neg_one_of_neg h]; omega
  · subst h; simp
  · rw [Int.sign_eq_one_of_pos h]; omega

/-- Helper for C2: `detectBranches` only reads the sign of `direction`. -/
theorem detectBranches_sign (p : Params) (s : Internals) (pos dir : Int) :
    detectBranches p s pos dir.sign = detectBranches p s pos dir := by
  unfold detectBranches maximumFound minimumFound
  rw [show decide (dir.sign ≤ 0) = decide (dir ≤ 0) from
      decide_eq_decide.mpr (sign_le_zero_iff dir),
    show decide (0 ≤ dir.sign) = decide (0 ≤ dir) from
      decide_eq_decide.mpr Int.sign_nonneg]

/-- C2 counterexample: with `lastDirection = -1`, the out-of-range direction
`+5` does trigger the `minimumFound` candidate predicate (and confirms an
extremum), contrary to the claim that neither predicate triggers. -/
theorem direction_five_triggers_minimum :
    minimumFound fallingFreshExample.m_internals 5 = true ∧
      (detect fallingFreshExample 0 5).2.m_internals.extremaCounter = 1 := by
  decide

/-- C2 (amended): an out-of-range `direction` behaves like its sign (`+1` for
positive, `-1` for negative), not like a stationary sample: the verdict, the
parameters and all internal fields match the sign-clamped call, except that
`lastDirection` stores the raw `direction` value. -/
theorem direction_out_of_range_acts_as_sign (d : OscillatorDetector)
    (pos dir : Int) :
    (detect d pos dir).1 = (detect d pos dir.sign).1 ∧
      (detect d pos dir).2.m_params = (detect d pos dir.sign).2.m_params ∧
      (detect d pos dir).2.m_internals =
        { (detect d pos dir.sign).2.m_internals with lastDirection := dir } := by
  unfold detect
  rw [detectBranches_sign]
  simp

end OscDet
